import Mathlib

/-!
# Verification of the plugins repository (bulk scraper / rule34 taggers)

A shallow embedding, in Lean 4, of the parts of the repository that the
frozen claims C1..C10 are about:

* `src/scripts/rule34_stash_tagger.py` — the wiki description cleaning
  pipeline (`Rule34WikiScraper._clean_description`,
  `_remove_tag_dumps`, `_is_valid_description`, `_extract_description`,
  `_score_description_candidate`, `scrape_tag`);
* `src/scrapers/rule34.xxx/rule34xxx_html.py` — the HTML tag fetch with
  retry/backoff (`scrape_html_tags`), the output mapping
  (`map_to_stashapp`) and the top-level `main` error policy;
* `src/scripts/bulk_scraper.py` — scraper ordering (`scrape_all`),
  skip policy (`_should_skip_item`), the metadata update payload
  (`update_item_metadata`) and progress statistics (`ProgressStats`).

Python strings are modelled as `List Char` (wrapped into `String` at the
statement level).  The Python `re` substitutions of the cleaning pipeline
are modelled by a small backtracking regular-expression engine whose
semantics follows Python's `re` module on the fragment of syntax the
source uses: leftmost match, greedy quantifiers, left-biased alternation,
non-overlapping global substitution scanning the original string,
`^`/`$`/`\b` anchors (with Python's MULTILINE/plain distinction, where a
plain `$` also matches just before a final newline), IGNORECASE literal
matching, and a lazy `.*?(?=stop|$)` form used by one pattern.  `\w`,
`\s`, `\d` are modelled over the character sets Python uses on the ASCII
inputs at hand (`\w` = alphanumeric or underscore).
-/

set_option maxRecDepth 100000

namespace Plugins

/-- Python `\s`: whitespace characters (str.strip and the `\s` class). -/
def isSpaceChar (c : Char) : Bool :=
  c = ' ' || c = '\t' || c = '\n' || c = '\r' || c = '\x0b' || c = '\x0c'

/-- Python `\w` (ASCII fragment): letters, digits, underscore. -/
def isWordChar (c : Char) : Bool :=
  c.isAlphanum || c = '_'

/-- Python str.strip(): drop whitespace from both ends. -/
def pyStrip (s : List Char) : List Char :=
  ((s.dropWhile (fun c => isSpaceChar c)).reverse.dropWhile
    (fun c => isSpaceChar c)).reverse

/-- Lowercase a character list (Python str.lower on ASCII data). -/
def lowerChars (s : List Char) : List Char :=
  s.map Char.toLower

/-- Is `pat` a prefix of `s` (case sensitive)? -/
def isPrefixOfChars : List Char → List Char → Bool
  | [], _ => true
  | _ :: _, [] => false
  | c :: cs, d :: ds => c = d && isPrefixOfChars cs ds

/-- Python `pat in s` substring test. -/
def containsSub (s pat : List Char) : Bool :=
  match s with
  | [] => isPrefixOfChars pat []
  | _ :: rest => isPrefixOfChars pat s || containsSub rest pat

/-- Python `s.rfind(pat)`: highest index at which `pat` occurs, `-1` if none. -/
def pyRfind (s pat : List Char) : Int :=
  match s with
  | [] => if isPrefixOfChars pat [] then 0 else -1
  | _ :: rest =>
      let r := pyRfind rest pat
      if r ≥ 0 then r + 1
      else if isPrefixOfChars pat s then 0 else -1

/-- Count occurrences of a character. -/
def countChar (s : List Char) (c : Char) : Nat :=
  s.countP (fun d => d = c)

/-- Regular expressions, covering exactly the fragment used by the source. -/
inductive RE where
  /-- empty pattern -/
  | eps : RE
  /-- single-character class -/
  | pred (p : Char → Bool) : RE
  /-- case-sensitive literal -/
  | str (s : List Char) : RE
  /-- case-insensitive literal (IGNORECASE) -/
  | strI (s : List Char) : RE
  /-- concatenation -/
  | cat (a b : RE) : RE
  /-- alternation, left-biased as in Python -/
  | alt (a b : RE) : RE
  /-- greedy Kleene star -/
  | star (a : RE) : RE
  /-- greedy option `a?` -/
  | opt (a : RE) : RE
  /-- capture group `(a)` numbered `i` -/
  | grp (i : Nat) (a : RE) : RE
  /-- `^` anchor; `ml` = MULTILINE flag -/
  | bol (ml : Bool) : RE
  /-- `$` anchor; `ml` = MULTILINE flag (plain `$` also matches before a final newline) -/
  | eol (ml : Bool) : RE
  /-- `\b` word boundary -/
  | wordB : RE
  /-- Python `.*?(?=stop|$)` with DOTALL, used by the h4-section removal -/
  | lazyUntil (stop : RE) : RE

/-- Greedy `a+` = `a a*`. -/
def RE.plus (a : RE) : RE := .cat a (.star a)

/-- Concatenation of a list of patterns. -/
def recats : List RE → RE
  | [] => .eps
  | [r] => r
  | r :: rs => .cat r (recats rs)

/-- Alternation of a list of patterns (left-biased, in list order). -/
def realts : List RE → RE
  | [] => .pred (fun _ => false)
  | [r] => r
  | r :: rs => .alt r (realts rs)

/-- Literal pattern from a string. -/
def rstr (s : String) : RE := .str s.data

/-- Case-insensitive literal pattern from a string. -/
def rstrI (s : String) : RE := .strI s.data

/-- Single character literal. -/
def rchar (c : Char) : RE := .pred (fun d => d = c)

/-- Case-insensitive single character. -/
def rcharI (c : Char) : RE := .pred (fun d => d.toLower = c.toLower)

/-- `\s*` -/
def rsp0 : RE := .star (.pred isSpaceChar)

/-- `\s+` -/
def rsp1 : RE := RE.plus (.pred isSpaceChar)

/-- `\w+` -/
def rword1 : RE := RE.plus (.pred isWordChar)

/-- Captured groups: most recent binding first. -/
abbrev Caps := List (Nat × List Char)

/-- Does the word-boundary condition hold between `prev` and the next char of `s`? -/
def wordBoundary (prev : Option Char) (s : List Char) : Bool :=
  let l := match prev with | none => false | some c => isWordChar c
  let r := match s with | [] => false | c :: _ => isWordChar c
  l != r

/-- `^` test: start of input, or (MULTILINE) right after a newline. -/
def bolHolds (ml : Bool) (prev : Option Char) : Bool :=
  match prev with
  | none => true
  | some c => ml && c = '\n'

/-- `$` test on the remaining input: end of input, before a final newline,
or (MULTILINE) before any newline. -/
def eolHolds (ml : Bool) (s : List Char) : Bool :=
  match s with
  | [] => true
  | c :: rest => c = '\n' && (ml || rest = [])

/-- Case-insensitive/case-sensitive literal match; returns the new
previous-character context and the remaining input. -/
def litMatch : List Char → Bool → Option Char → List Char →
    Option (Option Char × List Char)
  | [], _, prev, s => some (prev, s)
  | c :: cs, ci, _, s =>
      match s with
      | [] => none
      | d :: rest =>
          if (if ci then c.toLower = d.toLower else c = d) then
            litMatch cs ci (some d) rest
          else
            none

/-- Backtracking matcher in continuation-passing style.  The continuation
receives the previous-character context, the remaining input and the
captures; `none` from the continuation triggers backtracking.  Quantifier
preference order (greedy first, lazy shortest-first, left-biased
alternation) follows Python's `re`.  `fuel` bounds recursion depth; every
use below supplies fuel that is ample for the inputs evaluated. -/
def mtch (fuel : Nat) (r : RE) (prev : Option Char) (s : List Char) (caps : Caps)
    (k : Option Char → List Char → Caps → Option (List Char × Caps)) :
    Option (List Char × Caps) :=
  match fuel with
  | 0 => none
  | fuel + 1 =>
    match r with
    | .eps => k prev s caps
    | .pred p =>
        match s with
        | [] => none
        | c :: rest => if p c then k (some c) rest caps else none
    | .str l =>
        match litMatch l false prev s with
        | none => none
        | some (prev2, rest) => k prev2 rest caps
    | .strI l =>
        match litMatch l true prev s with
        | none => none
        | some (prev2, rest) => k prev2 rest caps
    | .cat a b =>
        mtch fuel a prev s caps (fun prev2 s2 caps2 => mtch fuel b prev2 s2 caps2 k)
    | .alt a b =>
        match mtch fuel a prev s caps k with
        | some res => some res
        | none => mtch fuel b prev s caps k
    | .star a =>
        match mtch fuel a prev s caps (fun prev2 s2 caps2 =>
            if s2.length < s.length then mtch fuel (.star a) prev2 s2 caps2 k
            else none) with
        | some res => some res
        | none => k prev s caps
    | .opt a =>
        match mtch fuel a prev s caps k with
        | some res => some res
        | none => k prev s caps
    | .grp i a =>
        mtch fuel a prev s caps (fun prev2 s2 caps2 =>
          k prev2 s2 ((i, s.take (s.length - s2.length)) :: caps2))
    | .bol ml => if bolHolds ml prev then k prev s caps else none
    | .eol ml => if eolHolds ml s then k prev s caps else none
    | .wordB => if wordBoundary prev s then k prev s caps else none
    | .lazyUntil stop =>
        let here :=
          if eolHolds false s then k prev s caps
          else
            match mtch fuel stop prev s caps (fun _ s2 caps2 => some (s2, caps2)) with
            | some _ => k prev s caps
            | none => none
        match here with
        | some res => some res
        | none =>
            match s with
            | [] => none
            | c :: rest => mtch fuel (.lazyUntil stop) (some c) rest caps k

/-- Fuel that is ample for all evaluations in this file. -/
def bigFuel (s : List Char) : Nat := (s.length + 2) * 1000

/-- Try to match `r` at the current position; returns the consumed length
and the captures of the first (Python-order) match. -/
def matchAt (r : RE) (prev : Option Char) (s : List Char) : Option (Nat × Caps) :=
  match mtch (bigFuel s) r prev s [] (fun _ s2 caps => some (s2, caps)) with
  | none => none
  | some (rest, caps) => some (s.length - rest.length, caps)

/-- Replacement template item: literal text or a group reference `\i`. -/
inductive TItem where
  | lit (s : List Char) : TItem
  | ref (i : Nat) : TItem

/-- Replacement template. -/
abbrev Template := List TItem

/-- Instantiate a replacement template with the captures of a match. -/
def instTemplate (t : Template) (caps : Caps) : List Char :=
  match t with
  | [] => []
  | .lit l :: rest => l ++ instTemplate rest caps
  | .ref i :: rest =>
      (match caps.find? (fun p => p.fst = i) with
       | some p => p.snd
       | none => []) ++ instTemplate rest caps

/-- Template of a plain string replacement. -/
def tstr (s : String) : Template := [.lit s.data]

/-- Global substitution: scan the original string left to right, replacing
non-overlapping matches, exactly as `re.sub` does for patterns that cannot
match the empty string (none of the source's patterns can).  Anchors and
`\b` are evaluated against the original string. -/
def subGo (fuel : Nat) (r : RE) (t : Template) (prev : Option Char) (s : List Char) :
    List Char :=
  match fuel with
  | 0 => s
  | fuel + 1 =>
    match s with
    | [] => []
    | c :: rest =>
        match matchAt r prev s with
        | some (consumed, caps) =>
            if consumed = 0 then
              c :: subGo fuel r t (some c) rest
            else
              instTemplate t caps ++
                subGo fuel r t (s.take consumed).getLast? (s.drop consumed)
        | none => c :: subGo fuel r t (some c) rest

/-- `re.sub(pattern, repl, s)`. -/
def pySub (r : RE) (t : Template) (s : List Char) : List Char :=
  subGo (s.length + 1) r t none s

/-- `re.search(pattern, s)`: index of the leftmost match, if any. -/
def searchGo (fuel : Nat) (r : RE) (prev : Option Char) (s : List Char) (idx : Nat) :
    Option Nat :=
  match fuel with
  | 0 => none
  | fuel + 1 =>
    match matchAt r prev s with
    | some _ => some idx
    | none =>
        match s with
        | [] => none
        | c :: rest => searchGo fuel r (some c) rest (idx + 1)

/-- Start position of the leftmost match of `r` in `s`, if any. -/
def pySearchPos (r : RE) (s : List Char) : Option Nat :=
  searchGo (s.length + 1) r none s 0

/-- `re.match(pattern, s)`: match anchored at the start; returns the
consumed length. -/
def pyMatch (r : RE) (s : List Char) : Option Nat :=
  match matchAt r none s with
  | none => none
  | some (n, _) => some n

/-- `len(re.findall(pattern, s))`: number of non-overlapping matches,
scanning left to right (for patterns that cannot match empty). -/
def countGo (fuel : Nat) (r : RE) (prev : Option Char) (s : List Char) : Nat :=
  match fuel with
  | 0 => 0
  | fuel + 1 =>
    match s with
    | [] => 0
    | c :: rest =>
        match matchAt r prev s with
        | some (consumed, _) =>
            if consumed = 0 then countGo fuel r (some c) rest
            else countGo fuel r (s.take consumed).getLast? (s.drop consumed) + 1
        | none => countGo fuel r (some c) rest

/-- Number of non-overlapping matches of `r` in `s`. -/
def pyCount (r : RE) (s : List Char) : Nat :=
  countGo (s.length + 1) r none s

/-!
## Rule34WikiScraper: the description cleaning pipeline

`src/scripts/rule34_stash_tagger.py`, lines 281–541.  Each definition
carries the Python regex it models.
-/

/-- The tag-dump indicator patterns of `_remove_tag_dumps` that are plain
literals between word boundaries (all are searched with IGNORECASE). -/
def dumpLit (s : String) : RE := recats [.wordB, .strI s.data, .wordB]

/-- Python regex `\b\d+girls?\b` (IGNORECASE). -/
def reNGirls : RE :=
  recats [.wordB, RE.plus (.pred Char.isDigit), rstrI "girl", .opt (rcharI 's'), .wordB]

/-- Python regex `\b\d+boys?\b` (IGNORECASE). -/
def reNBoys : RE :=
  recats [.wordB, RE.plus (.pred Char.isDigit), rstrI "boy", .opt (rcharI 's'), .wordB]

/-- The `tag_dump_patterns` list of `_remove_tag_dumps`, in source order,
joined by `|` into one pattern searched with IGNORECASE. -/
def tagDumpCombined : RE :=
  realts ([reNGirls, reNBoys] ++
    (["big_breasts", "large_breasts", "huge_breasts", "small_breasts",
      "medium_breasts", "blonde_hair", "black_hair", "brown_hair",
      "blue_eyes", "green_eyes", "brown_eyes", "female_only", "male_only",
      "solo_female", "solo_male", "nude_female", "nude_male",
      "completely_nude", "high_resolution", "highres", "hi_res",
      "digital_media", "digital_art", "original_character",
      "female_focus", "male_focus"].map dumpLit))

/-- Python regex `\b\w+_\w+\b`: an underscore-joined token. -/
def reUnderscoreToken : RE :=
  recats [.wordB, rword1, rchar '_', rword1, .wordB]

/-- `Rule34WikiScraper._remove_tag_dumps` (lines 469–541).  The Python
condition `sentence_end > len(before) * 0.3` compares an int against an
IEEE double; for the integer magnitudes arising here it coincides with
`10 * sentence_end > 3 * len(before)` over ℤ (the double product
`len * 0.3` is within 2e-16·len of the rational `0.3·len`, and rounds to
exactly `3·len/10` whenever that value is an integer), which is how it is
modelled. -/
def removeTagDumps (text : List Char) : List Char :=
  match pySearchPos tagDumpCombined text with
  | none => text
  | some pos =>
      let before := text.take pos
      let after := text.drop pos
      let tagCount := pyCount reUnderscoreToken (after.take 200)
      if tagCount ≥ 5 then
        let sentenceEnd : Int :=
          max (pyRfind before ". ".data)
            (max (pyRfind before ".\x0a".data) (pyRfind before ".)".data))
        if 10 * sentenceEnd > 3 * (before.length : Int) then
          pyStrip (before.take (sentenceEnd.toNat + 1))
        else
          pyStrip before
      else text

/-- Python regex `[ \t]+` → `' '`. -/
def reHorizWs : RE := RE.plus (.pred (fun c => c = ' ' || c = '\t'))

/-- Python regex `\n\s*\n` → `'\n'`. -/
def reBlankLines : RE := recats [rchar '\x0a', rsp0, rchar '\x0a']

/-- Python regex `\[edit\]` (IGNORECASE) → `''`. -/
def reEdit : RE := rstrI "[edit]"

/-- The known tag types of the page-header pattern. -/
def tagTypeNames : List String :=
  ["General", "Character", "Copyright", "Artist", "Meta", "Ambiguous", "Lore"]

/-- Python regex `^Now Viewing:\s*\S+\s*Tag type:\s*(General|Character|Copyright|Artist|Meta|Ambiguous|Lore)\s*`
(IGNORECASE), used with `re.match`. -/
def reHeaderCombined : RE :=
  recats [rstrI "Now Viewing:", rsp0, RE.plus (.pred (fun c => !isSpaceChar c)), rsp0,
    rstrI "Tag type:", rsp0, realts (tagTypeNames.map rstrI), rsp0]

/-- Python regex `^Now Viewing:\s*\S+\s*` (IGNORECASE) → `''`. -/
def reNowViewing : RE :=
  recats [.bol false, rstrI "Now Viewing:", rsp0,
    RE.plus (.pred (fun c => !isSpaceChar c)), rsp0]

/-- Python regex `^Tag type:\s*(General|…|Lore)\s+` (IGNORECASE) → `''`. -/
def reTagTypeKnown : RE :=
  recats [.bol false, rstrI "Tag type:", rsp0, realts (tagTypeNames.map rstrI), rsp1]

/-- Python regex `^Tag type:\s*\w+\s+` (IGNORECASE) → `''`. -/
def reTagTypeAny : RE :=
  recats [.bol false, rstrI "Tag type:", rsp0, rword1, rsp1]

/-- Python regex `\s*Other Wiki Information\s*Last updated:.*$`
(IGNORECASE | DOTALL) → `''`. -/
def reOtherWiki : RE :=
  recats [rsp0, rstrI "Other Wiki Information", rsp0, rstrI "Last updated:",
    .star (.pred (fun _ => true)), .eol false]

/-- Python regex `\s*Last updated:\s*[^.]+\.\s*by\s+\w+.*$`
(IGNORECASE | DOTALL) → `''`. -/
def reLastUpdated : RE :=
  recats [rsp0, rstrI "Last updated:", rsp0, RE.plus (.pred (fun c => c ≠ '.')),
    rchar '.', rsp0, rstrI "by", rsp1, rword1, .star (.pred (fun _ => true)), .eol false]

/-- Python regex `\s*This entry is not locked and you can edit it as you see fit\.?\s*`
(IGNORECASE) → `''`. -/
def reNotLocked : RE :=
  recats [rsp0, rstrI "This entry is not locked and you can edit it as you see fit",
    .opt (rchar '.'), rsp0]

/-- Python regex `\s*This entry is locked[^.]*\.?\s*` (IGNORECASE) → `''`. -/
def reLocked : RE :=
  recats [rsp0, rstrI "This entry is locked", .star (.pred (fun c => c ≠ '.')),
    .opt (rchar '.'), rsp0]

/-- Python regex `\s*View more\s*[»>]?\s*$` (IGNORECASE) → `''`. -/
def reViewMoreEnd : RE :=
  recats [rsp0, rstrI "View more", rsp0, .opt (.pred (fun c => c = '»' || c = '>')),
    rsp0, .eol false]

/-- Python regex `\s*View more\s*[»>]?\s*` (IGNORECASE) → `' '`. -/
def reViewMore : RE :=
  recats [rsp0, rstrI "View more", rsp0, .opt (.pred (fun c => c = '»' || c = '>')), rsp0]

/-- Python regex `\s*There are no images associated with this wiki entry\.?\s*`
(IGNORECASE) → `''`. -/
def reNoImages : RE :=
  recats [rsp0, rstrI "There are no images associated with this wiki entry",
    .opt (rchar '.'), rsp0]

/-- Python regex `\s*Reset cookie\s*/?\s*GDPR consent\s*` (IGNORECASE) → `''`. -/
def reResetGdpr : RE :=
  recats [rsp0, rstrI "Reset cookie", rsp0, .opt (rchar '/'), rsp0,
    rstrI "GDPR consent", rsp0]

/-- Python regex `\s*GDPR consent\s*` (IGNORECASE) → `''`. -/
def reGdpr : RE := recats [rsp0, rstrI "GDPR consent", rsp0]

/-- Python regex `\s*Reset cookie\s*` (IGNORECASE) → `''`. -/
def reReset : RE := recats [rsp0, rstrI "Reset cookie", rsp0]

/-- The six `remove_sections` heads: `h4\.\s*See also`, `h4\.\s*External links?`,
`h4\.\s*Links?`, `h4\.\s*References?`, `h4\.\s*Typical Tags?`,
`h4\.\s*Related Tags?` (all IGNORECASE). -/
def sectionHeads : List RE :=
  [recats [rstrI "h4.", rsp0, rstrI "See also"],
   recats [rstrI "h4.", rsp0, rstrI "External link", .opt (rcharI 's')],
   recats [rstrI "h4.", rsp0, rstrI "Link", .opt (rcharI 's')],
   recats [rstrI "h4.", rsp0, rstrI "Reference", .opt (rcharI 's')],
   recats [rstrI "h4.", rsp0, rstrI "Typical Tag", .opt (rcharI 's')],
   recats [rstrI "h4.", rsp0, rstrI "Related Tag", .opt (rcharI 's')]]

/-- Python regex `\bh4\.\s*(Original characters?)\s*:?\s*` (IGNORECASE)
→ `'Original characters: '`. -/
def reH4Orig : RE :=
  recats [.wordB, rstrI "h4.", rsp0, rstrI "Original character", .opt (rcharI 's'),
    rsp0, .opt (rchar ':'), rsp0]

/-- Python regex `\bh4\.\s*(Types?)\s*:?\s*` (IGNORECASE) → `'Types: '`. -/
def reH4Types : RE :=
  recats [.wordB, rstrI "h4.", rsp0, rstrI "Type", .opt (rcharI 's'),
    rsp0, .opt (rchar ':'), rsp0]

/-- Python regex `\bh4\.\s*(\w+)\s*:?\s*` (case sensitive) → `'\1: '`. -/
def reH4Generic : RE :=
  recats [.wordB, rstr "h4.", rsp0, .grp 1 rword1, rsp0, .opt (rchar ':'), rsp0]

/-- Python regex `"([^"]+)":\[?(?:https?://)?[^\s\[\]"]+\]?` → `'\1'`. -/
def reDtextUrl : RE :=
  recats [rchar '"', .grp 1 (RE.plus (.pred (fun c => c ≠ '"'))), rchar '"',
    rchar ':', .opt (rchar '['),
    .opt (recats [rstr "http", .opt (rchar 's'), rstr "://"]),
    RE.plus (.pred (fun c => !isSpaceChar c && c ≠ '[' && c ≠ ']' && c ≠ '"')),
    .opt (rchar ']')]

/-- Python regex `"([^"]+)":/[^\s"]+` → `'\1'`. -/
def reDtextPath : RE :=
  recats [rchar '"', .grp 1 (RE.plus (.pred (fun c => c ≠ '"'))), rchar '"',
    rchar ':', rchar '/', RE.plus (.pred (fun c => !isSpaceChar c && c ≠ '"'))]

/-- Python regex `\[\[([^\]|]+)\|([^\]]+)\]\]` → `'\2'`. -/
def reWikiLink2 : RE :=
  recats [rstr "[[", .grp 1 (RE.plus (.pred (fun c => c ≠ ']' && c ≠ '|'))),
    rchar '|', .grp 2 (RE.plus (.pred (fun c => c ≠ ']'))), rstr "]]"]

/-- Python regex `\[\[([^\]]+)\]\]` → `'\1'`. -/
def reWikiLink1 : RE :=
  recats [rstr "[[", .grp 1 (RE.plus (.pred (fun c => c ≠ ']'))), rstr "]]"]

/-- Python regex `https?://[^\s<>"]+` → `''`. -/
def reBareUrl : RE :=
  recats [rstr "http", .opt (rchar 's'), rstr "://",
    RE.plus (.pred (fun c => !isSpaceChar c && c ≠ '<' && c ≠ '>' && c ≠ '"'))]

/-- Python regex `\b\w+\.(?:com|org|net|info|jp|co\.uk)[^\s]*` → `''`. -/
def reDomain : RE :=
  recats [.wordB, rword1, rchar '.',
    realts [rstr "com", rstr "org", rstr "net", rstr "info", rstr "jp", rstr "co.uk"],
    .star (.pred (fun c => !isSpaceChar c))]

/-- Python regex `\[[^\]]*\]` → `''`. -/
def reBracketed : RE :=
  recats [rchar '[', .star (.pred (fun c => c ≠ ']')), rchar ']']

/-- Python regex `=[^\s&]*` → `''`. -/
def reEqValue : RE :=
  recats [rchar '=', .star (.pred (fun c => !isSpaceChar c && c ≠ '&'))]

/-- Python regex `&\w+` → `''`. -/
def reAmpParam : RE := recats [rchar '&', rword1]

/-- Python regex `\?utf8` → `''`. -/
def reUtf8 : RE := rstr "?utf8"

/-- Python regex `\*\s+` → `'• '`. -/
def reAstSp : RE := recats [rchar '*', rsp1]

/-- Python regex `^\s*\*\s*` (MULTILINE) → `'• '`. -/
def reLineAst : RE := recats [.bol true, rsp0, rchar '*', rsp0]

/-- Python regex `\|\s*\*\s*` → `' • '`. -/
def rePipeAst : RE := recats [rchar '|', rsp0, rchar '*', rsp0]

/-- Python regex `\s*\|\s*` → `' '`. -/
def rePipe : RE := recats [rsp0, rchar '|', rsp0]

/-- Python regex `\*\s*` → `', '`. -/
def reAst : RE := recats [rchar '*', rsp0]

/-- Python regex `,\s*,` → `','`. -/
def reCommaComma : RE := recats [rchar ',', rsp0, rchar ',']

/-- Python regex `:\s*,\s*` → `': '`. -/
def reColonComma : RE := recats [rchar ':', rsp0, rchar ',', rsp0]

/-- Python regex `\b\w+_,\s*` → `''`. -/
def reWordUnderscoreComma : RE :=
  recats [.wordB, rword1, rchar '_', rchar ',', rsp0]

/-- Python regex `,\s*_\w+\b` → `''`. -/
def reCommaUnderscoreWord : RE :=
  recats [rchar ',', rsp0, rchar '_', rword1, .wordB]

/-- Python regex `\.([A-Z])` → `'. \1'`. -/
def reDotCap : RE :=
  recats [rchar '.', .grp 1 (.pred (fun c => 'A' ≤ c && c ≤ 'Z'))]

/-- Python regex `•\s*(\w)` → `'• \1'`. -/
def reBulletWord : RE := recats [rchar '•', rsp0, .grp 1 (.pred isWordChar)]

/-- Python regex `(\w)•` → `'\1 •'`. -/
def reWordBullet : RE := recats [.grp 1 (.pred isWordChar), rchar '•']

/-- Python regex `\(\s*\)` → `''`. -/
def reEmptyParens : RE := recats [rchar '(', rsp0, rchar ')']

/-- Python regex `\[\s*\]` → `''`. -/
def reEmptyBrackets : RE := recats [rchar '[', rsp0, rchar ']']

/-- Python regex `\]` → `''`. -/
def reCloseBracket : RE := rchar ']'

/-- Python regex `\.{2,}` → `'.'`. -/
def reDots : RE := recats [rchar '.', RE.plus (rchar '.')]

/-- Python regex `\s+([.,;:!?])` → `'\1'`. -/
def reSpacePunct : RE :=
  recats [rsp1, .grp 1 (.pred (fun c =>
    c = '.' || c = ',' || c = ';' || c = ':' || c = '!' || c = '?'))]

/-- The character class `[,;:\s•*]` of the lead/trail trims. -/
def leadTrailClass (c : Char) : Bool :=
  c = ',' || c = ';' || c = ':' || isSpaceChar c || c = '•' || c = '*'

/-- Python regex `^[,;:\s•*]+` → `''`. -/
def reLeadPunct : RE := recats [.bol false, RE.plus (.pred leadTrailClass)]

/-- Python regex `[,;:\s•*]+$` → `''`. -/
def reTrailPunct : RE := recats [RE.plus (.pred leadTrailClass), .eol false]

/-- Python regex `•\s*•` → `'•'`. -/
def reBulletBullet : RE := recats [rchar '•', rsp0, rchar '•']

/-- Python regex `:\s*•\s*$` → `''`. -/
def reTrailColonBullet : RE :=
  recats [rchar ':', rsp0, rchar '•', rsp0, .eol false]

/-- `Rule34WikiScraper._clean_description` (lines 281–467): the ordered
pipeline of `re.sub` transforms, translated step by step in source order. -/
def cleanDescription (text0 : List Char) : List Char :=
  let t := pySub reHorizWs (tstr " ") text0
  let t := pySub reBlankLines (tstr "\x0a") t
  let t := pyStrip t
  let t := pySub reEdit (tstr "") t
  let t :=
    match pyMatch reHeaderCombined t with
    | some n => t.drop n
    | none =>
        let t := pySub reNowViewing (tstr "") t
        let t := pySub reTagTypeKnown (tstr "") t
        pySub reTagTypeAny (tstr "") t
  let t := pySub reOtherWiki (tstr "") t
  let t := pySub reLastUpdated (tstr "") t
  let t := pySub reNotLocked (tstr "") t
  let t := pySub reLocked (tstr "") t
  let t := pySub reViewMoreEnd (tstr "") t
  let t := pySub reViewMore (tstr " ") t
  let t := pySub reNoImages (tstr "") t
  let t := pySub reResetGdpr (tstr "") t
  let t := pySub reGdpr (tstr "") t
  let t := pySub reReset (tstr "") t
  let t := sectionHeads.foldl
    (fun acc h => pySub (.cat h (.lazyUntil (rstrI "h4."))) (tstr "") acc) t
  let t := pySub reH4Orig (tstr "Original characters: ") t
  let t := pySub reH4Types (tstr "Types: ") t
  let t := pySub reH4Generic [.ref 1, .lit ": ".data] t
  let t := pySub reDtextUrl [.ref 1] t
  let t := pySub reDtextPath [.ref 1] t
  let t := pySub reWikiLink2 [.ref 2] t
  let t := pySub reWikiLink1 [.ref 1] t
  let t := pySub reBareUrl (tstr "") t
  let t := pySub reDomain (tstr "") t
  let t := pySub reBracketed (tstr "") t
  let t := pySub reEqValue (tstr "") t
  let t := pySub reAmpParam (tstr "") t
  let t := pySub reUtf8 (tstr "") t
  let t := removeTagDumps t
  let t := pySub reAstSp (tstr "• ") t
  let t := pySub reLineAst (tstr "• ") t
  let t := pySub rePipeAst (tstr " • ") t
  let t := pySub rePipe (tstr " ") t
  let t := pySub reAst (tstr ", ") t
  let t := pySub reCommaComma (tstr ",") t
  let t := pySub reColonComma (tstr ": ") t
  let t := pySub reWordUnderscoreComma (tstr "") t
  let t := pySub reCommaUnderscoreWord (tstr "") t
  let t := pySub reDotCap [.lit ". ".data, .ref 1] t
  let t := pySub reBulletWord [.lit "• ".data, .ref 1] t
  let t := pySub reWordBullet [.ref 1, .lit " •".data] t
  let t := pySub rsp1 (tstr " ") t
  let t := pyStrip t
  let t := pySub reEmptyParens (tstr "") t
  let t := pySub reEmptyBrackets (tstr "") t
  let t := pySub reCloseBracket (tstr "") t
  let t := pySub reDots (tstr ".") t
  let t := pySub reSpacePunct [.ref 1] t
  let t := pySub reLeadPunct (tstr "") t
  let t := pySub reTrailPunct (tstr "") t
  let t := pySub reBulletBullet (tstr "•") t
  let t := pySub reTrailColonBullet (tstr "") t
  pyStrip t

/-- String-level wrapper of `_clean_description`. -/
def cleanDescriptionStr (s : String) : String :=
  ⟨cleanDescription s.data⟩

/-- String-level wrapper of `_remove_tag_dumps`. -/
def removeTagDumpsStr (s : String) : String :=
  ⟨removeTagDumps s.data⟩

/-!
## Validation, scoring and extraction

`src/scripts/rule34_stash_tagger.py`, lines 607–805.
-/

/-- Python `len(s.split())`: number of maximal non-whitespace runs.  The
flag records whether the previous character was part of a word. -/
def wordStarts (prevInWord : Bool) : List Char → Nat
  | [] => 0
  | c :: rest =>
      if isSpaceChar c then wordStarts false rest
      else (if prevInWord then 0 else 1) + wordStarts true rest

/-- Python `len(s.split())`. -/
def pyWordCount (s : List Char) : Nat := wordStarts false s

/-- Python `sum(1 for c in text if c.isalpha())` (ASCII fragment). -/
def alphaCount (s : List Char) : Nat := s.countP (fun c => c.isAlpha)

/-- Python regex `^This entry is (not )?locked` (IGNORECASE, `re.match`). -/
def gLocked : RE :=
  recats [rstrI "This entry is ", .opt (rstrI "not "), rstrI "locked"]

/-- Python regex `^Version \d+` (IGNORECASE, `re.match`). -/
def gVersion : RE := recats [rstrI "Version ", RE.plus (.pred Char.isDigit)]

/-- Python regex `^(\w+_)+\w+(\s+(\w+_)+\w+){5,}$` (IGNORECASE, `re.match`):
a pure tag dump.  `{5,}` is expanded as five copies followed by a star. -/
def gPureTagDump : RE :=
  let chunk : RE := .cat (RE.plus (.cat rword1 (rchar '_'))) rword1
  let rep : RE := .cat rsp1 chunk
  recats [chunk, rep, rep, rep, rep, rep, .star rep, .eol false]

/-- The `garbage_patterns` of `_is_valid_description`, in source order. -/
def garbagePatterns : List RE :=
  [gLocked, rstrI "Reset cookie", rstrI "GDPR consent", rstrI "Recent Changes",
   gVersion, rstrI "Last updated", rstrI "There are no images", rstrI "View more",
   gPureTagDump]

/-- `Rule34WikiScraper._is_valid_description` (lines 765–805).  The float
comparison `alpha_chars < len(cleaned_text) * 0.5` is exact in binary
(`0.5` is a power of two) and is modelled as `2 * alpha < len`. -/
def isValidDescription (t : List Char) : Bool :=
  if t.isEmpty then false
  else if t.length < 20 then false
  else if pyWordCount t < 5 then false
  else if 2 * alphaCount t < t.length then false
  else if garbagePatterns.any (fun g => (pyMatch g t).isSome) then false
  else true

/-- String-level wrapper of `_is_valid_description`. -/
def isValidDescriptionStr (s : String) : Bool := isValidDescription s.data

/-- Python regex `\b\w+_\w+_\w+\b`: a three-part underscore token. -/
def reUnderscoreToken3 : RE :=
  recats [.wordB, rword1, rchar '_', rword1, rchar '_', rword1, .wordB]

/-- Python regex `\bh4\.\s*(See also|External links)` (IGNORECASE). -/
def reH4SeeAlsoExt : RE :=
  recats [.wordB, rstrI "h4.", rsp0, .alt (rstrI "See also") (rstrI "External links")]

/-- The verb phrases and domain nouns looked for by the scorer. -/
def descriptiveMarkers : List String :=
  ["is a ", "are ", "refers to", "describes", "character", "series"]

/-- `Rule34WikiScraper._score_description_candidate` (lines 724–763).
`len(text.split('.')) >= 2` holds exactly when the text contains a `'.'`. -/
def scoreCandidate (t : List Char) : Int :=
  (if containsSub t "Tag type:".data then 20 else 0) +
  (if descriptiveMarkers.any (fun w => containsSub t w.data) then 15 else 0) +
  (if 1 ≤ countChar t '.' then 10 else 0) +
  (if (pySearchPos reH4SeeAlsoExt t).isSome then 5 else 0) +
  (if 100 < t.length && t.length < 500 then 15
   else if 500 < t.length && t.length < 2000 then 10
   else if 2000 < t.length then 5 else 0) -
  (if containsSub t "Reset cookie".data then 30 else 0) -
  (if containsSub t "GDPR consent".data then 30 else 0) -
  (if containsSub t "Recent Changes".data then 20 else 0) -
  (if 20 < pyCount reUnderscoreToken3 t then 30 else 0)

/-- The parsed `#content` div of a wiki page, as the extraction walks it:
the stripped-source texts of its `td` cells, its `p` paragraphs, and its
inner `div`s with their id and class strings (in document order, after the
chrome elements of line 654 have been decomposed). -/
structure WikiDoc where
  tds : List (List Char)
  ps : List (List Char)
  divs : List (List Char × List Char × List Char)

/-- One step of the method-1 best-candidate loop (lines 670–688). -/
def bestCandidateStep (acc : Option (List Char) × Int) (td : List Char) :
    Option (List Char) × Int :=
  let text := pyStrip td
  if text.length < 30 then acc
  else if isPrefixOfChars "Version".data text then acc
  else if containsSub text "Recent Changes".data && countChar text '\x0a' + 1 < 5 then acc
  else
    let score := scoreCandidate text
    if acc.snd < score then (some text, score) else acc

/-- The method-1 best-candidate fold, starting from `(None, 0)`. -/
def bestCandidate (tds : List (List Char)) : Option (List Char) × Int :=
  tds.foldl bestCandidateStep (none, 0)

/-- Method 2 (lines 696–701): first long-enough paragraph whose cleaned
text validates. -/
def firstValidParagraph : List (List Char) → Option (List Char)
  | [] => none
  | p :: rest =>
      let text := pyStrip p
      if 50 < text.length then
        let cleaned := cleanDescription text
        if isValidDescription cleaned then some cleaned
        else firstValidParagraph rest
      else firstValidParagraph rest

/-- The `skip_patterns` of method 3 (line 709). -/
def divSkipPatterns : List String :=
  ["header", "navbar", "subnavbar", "sidebar", "paginator", "notice", "footer",
   "pagination"]

/-- Method 3 (lines 704–720): first substantial non-chrome div whose
cleaned text validates. -/
def firstValidDiv : List (List Char × List Char × List Char) → Option (List Char)
  | [] => none
  | (divId, divClass, divText) :: rest =>
      if divSkipPatterns.any (fun p => containsSub (lowerChars divId) p.data) then
        firstValidDiv rest
      else if divSkipPatterns.any (fun p => containsSub (lowerChars divClass) p.data) then
        firstValidDiv rest
      else
        let text := pyStrip divText
        if 50 < text.length && text.length < 5000 then
          let cleaned := cleanDescription text
          if isValidDescription cleaned then some cleaned
          else firstValidDiv rest
        else firstValidDiv rest

/-- `Rule34WikiScraper._extract_description` (lines 640–722).  `none` for
the document argument models a page with no `#content` div. -/
def extractDescription (content : Option WikiDoc) : Option (List Char) :=
  match content with
  | none => none
  | some doc =>
      let best := bestCandidate doc.tds
      let m1 : Option (List Char) :=
        match best with
        | (some text, score) =>
            if !text.isEmpty && 10 ≤ score then
              let cleaned := cleanDescription text
              if isValidDescription cleaned then some cleaned else none
            else none
        | (none, _) => none
      match m1 with
      | some d => some d
      | none =>
          match firstValidParagraph doc.ps with
          | some d => some d
          | none => firstValidDiv doc.divs

/-- Result of one wiki scrape attempt (the `WikiResult` dataclass). -/
structure WikiResultM where
  tagName : String
  description : Option String
  success : Bool
  error : Option String
deriving DecidableEq

/-- The fetch-level outcomes of `Rule34WikiScraper.scrape_tag`
(lines 543–605), with the two HTTP round-trips and the exception handlers
abstracted into one observation: every branch other than a fetched page
carries its error; a fetched page carries the parsed content div. -/
inductive WikiFetch where
  | searchRateLimited : WikiFetch
  | searchServerError (code : Nat) : WikiFetch
  | searchHttpOther (code : Nat) : WikiFetch
  | noWikiId : WikiFetch
  | pageHttpError (code : Nat) : WikiFetch
  | timeout : WikiFetch
  | requestError (e : String) : WikiFetch
  | page (content : Option WikiDoc) : WikiFetch

/-- `Rule34WikiScraper.scrape_tag`: the `WikiResult` produced for each
fetch outcome, following the branch structure of lines 553–605. -/
def scrapeTag (tagName : String) : WikiFetch → WikiResultM
  | .searchRateLimited => ⟨tagName, none, false, some "Rate limited"⟩
  | .searchServerError c => ⟨tagName, none, false, some ("Server error: " ++ toString c)⟩
  | .searchHttpOther c => ⟨tagName, none, false, some ("HTTP " ++ toString c)⟩
  | .noWikiId => ⟨tagName, none, false, some "No wiki page found for tag"⟩
  | .pageHttpError c =>
      ⟨tagName, none, false, some ("HTTP " ++ toString c ++ " fetching wiki page")⟩
  | .timeout => ⟨tagName, none, false, some "Request timeout"⟩
  | .requestError e => ⟨tagName, none, false, some e⟩
  | .page content =>
      match extractDescription content with
      | some d =>
          if !d.isEmpty then ⟨tagName, some ⟨d⟩, true, none⟩
          else ⟨tagName, none, false, some "No description found on wiki page"⟩
      | none => ⟨tagName, none, false, some "No description found on wiki page"⟩

/-!
## rule34xxx_html.py: resilient HTML tag fetch and top-level policy

`src/scrapers/rule34.xxx/rule34xxx_html.py`, lines 133–423.  The network
is modelled by a script mapping the attempt index to the observed outcome
of that HTTP request; `time.sleep` becomes an explicit list of slept
durations; the `Rule34TagParser` HTML parse is an abstract function
(none of the claims depend on its output).
-/

/-- The categorized tag dictionary built by `Rule34TagParser`. -/
structure CategorizedTags where
  characters : List String
  artists : List String
  copyrights : List String
  general : List String
  meta : List String
deriving DecidableEq

/-- Outcome of one HTTP request inside `scrape_html_tags`. -/
inductive FetchAttempt where
  /-- a 2xx response whose decoded body is `html` -/
  | ok (html : String) : FetchAttempt
  /-- `urllib.error.HTTPError` with the given status code -/
  | httpError (code : Nat) : FetchAttempt
  /-- `urllib.error.URLError` (network error) -/
  | urlError : FetchAttempt
  /-- any other exception -/
  | exn : FetchAttempt

/-- Return value of `scrape_html_tags`: a tag dict on success, Python
`False` on permanent failure (404 / entity not found), Python `None` on
temporary failure. -/
inductive HtmlScrapeResult where
  | tags (t : CategorizedTags) : HtmlScrapeResult
  | permanentFailure : HtmlScrapeResult
  | temporaryFailure : HtmlScrapeResult
deriving DecidableEq

/-- Did the fetch succeed with a tag dictionary? -/
def HtmlScrapeResult.isSuccess : HtmlScrapeResult → Bool
  | .tags _ => true
  | _ => false

/-- Observable run of `scrape_html_tags`: its return value, the backoff
sleeps issued (in seconds, in order), and the number of HTTP requests
actually sent. -/
structure HtmlScrapeRun where
  result : HtmlScrapeResult
  sleeps : List Nat
  attempts : Nat
deriving DecidableEq

/-- The body signature of a deleted post (line 216): the page contains
`"Nobody here but us chickens"` or `"Post not found"`. -/
def notFoundSignature (html : String) : Bool :=
  containsSub html.data "Nobody here but us chickens".data ||
  containsSub html.data "Post not found".data

/-- The retry loop of `scrape_html_tags` (lines 206–273).  `remaining` is
`retry_count - attempt`; the loop body matches the source case by case:
a 2xx body with the not-found signature → permanent failure; HTTPError
404 → permanent failure; 429 → sleep `2^attempt` and retry, else give up;
≥500 → sleep 1 and retry, else give up; other HTTP errors, unexpected
exceptions → temporary failure at once; URLError → sleep 1 and retry,
else give up; loop exhausted → temporary failure. -/
def scrapeHtmlTagsGo (parse : String → CategorizedTags) (script : Nat → FetchAttempt)
    (retryCount : Nat) : Nat → Nat → List Nat → Nat → HtmlScrapeRun
  | 0, _, sleeps, issued => ⟨.temporaryFailure, sleeps, issued⟩
  | remaining + 1, attempt, sleeps, issued =>
      match script attempt with
      | .ok html =>
          if notFoundSignature html then ⟨.permanentFailure, sleeps, issued + 1⟩
          else ⟨.tags (parse html), sleeps, issued + 1⟩
      | .httpError code =>
          if code = 404 then ⟨.permanentFailure, sleeps, issued + 1⟩
          else if code = 429 then
            if attempt < retryCount - 1 then
              scrapeHtmlTagsGo parse script retryCount remaining (attempt + 1)
                (sleeps ++ [2 ^ attempt]) (issued + 1)
            else ⟨.temporaryFailure, sleeps, issued + 1⟩
          else if 500 ≤ code then
            if attempt < retryCount - 1 then
              scrapeHtmlTagsGo parse script retryCount remaining (attempt + 1)
                (sleeps ++ [1]) (issued + 1)
            else ⟨.temporaryFailure, sleeps, issued + 1⟩
          else ⟨.temporaryFailure, sleeps, issued + 1⟩
      | .urlError =>
          if attempt < retryCount - 1 then
            scrapeHtmlTagsGo parse script retryCount remaining (attempt + 1)
              (sleeps ++ [1]) (issued + 1)
          else ⟨.temporaryFailure, sleeps, issued + 1⟩
      | .exn => ⟨.temporaryFailure, sleeps, issued + 1⟩

/-- `scrape_html_tags(post_id, retry_count)` (default `retry_count=3`).
`postId` only determines the URL fetched, which the script abstracts. -/
def scrapeHtmlTags (parse : String → CategorizedTags) (_postId : String)
    (script : Nat → FetchAttempt) (retryCount : Nat) : HtmlScrapeRun :=
  scrapeHtmlTagsGo parse script retryCount retryCount 0 [] 0

/-- Metadata from the md5 API lookup (`get_post_id_from_md5`). -/
structure PostMetadata where
  score : Option String
  width : Option String
  height : Option String
  rating : Option String
deriving DecidableEq

/-- The scraped-result JSON object assembled by `map_to_stashapp`:
only fields actually set are `some`. -/
structure StashScrapeOutput where
  url : Option String
  performers : Option (List String)
  studio : Option String
  tags : Option (List String)
  details : Option String
deriving DecidableEq

/-- The empty JSON object `{}`. -/
def emptyOutput : StashScrapeOutput := ⟨none, none, none, none, none⟩

/-- The `rating_map` of `map_to_stashapp` (line 313). -/
def ratingName (r : String) : String :=
  if r = "s" then "safe"
  else if r = "q" then "questionable"
  else if r = "e" then "explicit"
  else r

/-- Python `" | ".join(parts)`. -/
def joinBar : List String → String
  | [] => ""
  | [p] => p
  | p :: rest => p ++ " | " ++ joinBar rest

/-- `map_to_stashapp(post_id, metadata, categorized_tags)` (lines 275–331). -/
def mapToStashapp (postId : String) (md : PostMetadata) (t : CategorizedTags) :
    StashScrapeOutput :=
  let url := "https://rule34.xxx/index.php?page=post&s=view&id=" ++ postId
  let performers := if t.characters ≠ [] then some t.characters else none
  let studio := t.artists.head?
  let allTags :=
    t.general.map (fun g => "r34:" ++ g) ++
    t.artists.map (fun a => "r34:artist:" ++ a) ++
    t.copyrights.map (fun s => "r34:series:" ++ s) ++
    t.meta.map (fun m => "r34:meta:" ++ m) ++
    (match md.rating with
     | some r => ["r34:rating:" ++ ratingName r]
     | none => [])
  let tags := if allTags ≠ [] then some allTags else none
  let details :=
    (match md.score with
     | some s => ["Score: " ++ s]
     | none => []) ++
    (match md.width, md.height with
     | some w, some h => ["Dimensions: " ++ w ++ "x" ++ h]
     | _, _ => [])
  ⟨some url, performers, studio, tags,
   if details ≠ [] then some (joinBar details) else none⟩

/-- The output branch of `main` once `scrape_html_tags` has returned
(lines 389–411): temporary failure → `{}`; permanent failure → `{}`;
otherwise the mapped result.  (The `elif not categorized_tags` branch of
line 402 cannot fire on a parser result, which is a five-key dict and
hence truthy.) -/
def mainScrapeOutput (fetch : HtmlScrapeResult) (postId : String)
    (md : PostMetadata) : StashScrapeOutput :=
  match fetch with
  | .temporaryFailure => emptyOutput
  | .permanentFailure => emptyOutput
  | .tags t => mapToStashapp postId md t

/-- The top-level exception guard of `main` (lines 335–419): an
exception escaping the body is caught and `{}` is printed. -/
def mainEntry (body : Except String StashScrapeOutput) : StashScrapeOutput :=
  match body with
  | .error _ => emptyOutput
  | .ok out => out

/-- A transient attempt in the sense of the retry policy: HTTP 429, an
HTTP 5xx, or a network-level error. -/
def FetchAttempt.isTransient : FetchAttempt → Bool
  | .httpError code => code = 429 || 500 ≤ code
  | .urlError => true
  | _ => false

/-!
## bulk_scraper.py: ordering, skip policy, update payload, statistics

`src/scripts/bulk_scraper.py`.
-/

/-- The `Scraper` dataclass (lines 120–125). -/
structure Scraper where
  id : String
  name : String
  supportedScrapes : List String
deriving DecidableEq

/-- Python `s.lower()` for a string. -/
def lowerStr (s : String) : String := ⟨lowerChars s.data⟩

/-- `is_generic_scraper` (lines 1141–1144). -/
def isGenericScraper (s : Scraper) : Bool :=
  ["auto", "generic", "fallback", "default", "universal"].any
    (fun k => containsSub (lowerChars s.name.data) k.data)

/-- Does the scraper support FRAGMENT scraping (line 1147)? -/
def supportsFragment (s : Scraper) : Bool :=
  s.supportedScrapes.contains "FRAGMENT"

/-- Accumulator of the requested-name partition loop (lines 1153–1164):
the primary found so far (overwritten on every name match), the specific
scrapers, and the generic scrapers. -/
def partitionStep (nm : String) (acc : Option Scraper × List Scraper × List Scraper)
    (s : Scraper) : Option Scraper × List Scraper × List Scraper :=
  if lowerStr s.name = lowerStr nm then (some s, acc.2.1, acc.2.2)
  else if isGenericScraper s then (acc.1, acc.2.1, acc.2.2 ++ [s])
  else (acc.1, acc.2.1 ++ [s], acc.2.2)

/-- The scraper-ordering logic of `BulkScraper.scrape_all`
(lines 1131–1177).  `none` models the early `return results` error paths
(no scrapers, no FRAGMENT scrapers, requested scraper not found). -/
def orderScrapers (allScrapers : List Scraper) (scraperName : Option String) :
    Option (List Scraper) :=
  if allScrapers.isEmpty then none
  else
    let fragmentScrapers := allScrapers.filter supportsFragment
    if fragmentScrapers.isEmpty then none
    else
      match scraperName with
      | some nm =>
          match fragmentScrapers.foldl (partitionStep nm) (none, [], []) with
          | (none, _, _) => none
          | (some primary, specifics, generics) =>
              some ([primary] ++ specifics ++ generics)
      | none =>
          some (fragmentScrapers.filter (fun s => !isGenericScraper s) ++
            fragmentScrapers.filter isGenericScraper)

/-- A tag reference on a Stash item: the store returns `{id, name}` dicts. -/
structure TagRef where
  id : String
  name : String
deriving DecidableEq

/-- The `StashItem` dataclass (lines 108–118), with the timestamp as epoch
seconds. -/
structure StashItemM where
  id : String
  type : String
  title : Option String
  path : Option String
  checksum : Option String
  tags : List TagRef
  organized : Bool
  fileTimestamp : Option Int
deriving DecidableEq

/-- Python truthiness of the optional path: `not item.path` holds for
`None` and for the empty string. -/
def pathMissing (p : Option String) : Bool :=
  match p with
  | none => true
  | some s => s.isEmpty

/-- The skip configuration of `BulkScraper.__init__` (lines 830–846).
`skipIfHasTags` is stored lowercased, as the constructor lowercases it. -/
structure SkipConfig where
  skipOrganized : Bool
  skipTagged : Bool
  skipIfHasTags : List String
  dateSince : Option Int
  dateBefore : Option Int
deriving DecidableEq

/-- The distinct skip reasons returned by `_should_skip_item` (each models
one `return True, …` literal; the date reasons carry the configured
bound that the source interpolates into the message). -/
inductive SkipReason where
  | alreadyOrganized : SkipReason
  | alreadyHasTags : SkipReason
  | exclusionTag (t : String) : SkipReason
  | noFilePath : SkipReason
  | noTimestamp : SkipReason
  | beforeDateFilter (d : Int) : SkipReason
  | afterDateFilter (d : Int) : SkipReason
deriving DecidableEq

/-- One day, in epoch seconds (`timedelta(days=1)`). -/
def oneDay : Int := 86400

/-- `BulkScraper._should_skip_item` (lines 860–894), translated guard by
guard in source order; `none` = do not skip. -/
def shouldSkipItem (cfg : SkipConfig) (item : StashItemM) : Option SkipReason :=
  if cfg.skipOrganized && item.organized then some .alreadyOrganized
  else if cfg.skipTagged && decide (0 < item.tags.length) then some .alreadyHasTags
  else
    let exclusion :=
      if !cfg.skipIfHasTags.isEmpty && !item.tags.isEmpty then
        cfg.skipIfHasTags.find? (fun t =>
          (item.tags.map (fun r => lowerStr r.name)).contains t)
      else none
    match exclusion with
    | some t => some (.exclusionTag t)
    | none =>
        if pathMissing item.path then some .noFilePath
        else if cfg.dateSince.isSome || cfg.dateBefore.isSome then
          match item.fileTimestamp with
          | none => some .noTimestamp
          | some ts =>
              match cfg.dateSince with
              | some since =>
                  if ts < since then some (.beforeDateFilter since)
                  else
                    match cfg.dateBefore with
                    | some before =>
                        if before + oneDay ≤ ts then some (.afterDateFilter before)
                        else none
                    | none => none
              | none =>
                  match cfg.dateBefore with
                  | some before =>
                      if before + oneDay ≤ ts then some (.afterDateFilter before)
                      else none
                  | none => none
        else none

/-- The update payload fields of `StashClient.update_item_metadata`
(lines 772–821); `none` = field absent from the `updates` dict. -/
structure UpdatePayload where
  tagIds : Option (List String)
  performerIds : Option (List String)
  title : Option String
  details : Option String
  date : Option String
  photographer : Option String
  director : Option String
  code : Option String
  urls : Option (List String)
  studioId : Option String
deriving DecidableEq

/-- The `updates["tag_ids"]` merge of lines 777–779:
`list(set(current_tag_ids + updates["tag_ids"]))`.  Python's set holds the
union without duplicates in an unspecified iteration order; it is modelled
as `dedup`, which keeps the first occurrence of each id — every statement
proved about it is order-insensitive membership. -/
def mergeTagIds (current new : List String) : List String :=
  (current ++ new).dedup

/-- The mutation input built by `update_item_metadata`: the `updates`
dict after the in-place tag merge; all other fields pass through
unchanged (`input_data.update(updates)`). -/
def updateInputData (item : StashItemM) (u : UpdatePayload) : UpdatePayload :=
  { u with
    tagIds :=
      match u.tagIds with
      | some l => some (mergeTagIds (item.tags.map TagRef.id) l)
      | none => none }

/-- The `ProgressStats` dataclass (lines 148–167); the two per-name dicts
are modelled as total maps `String → Nat` defaulting to `0`. -/
structure ProgressStatsM where
  total : Nat
  processed : Nat
  successful : Nat
  skipped : Nat
  failed : Nat
  tagsCreated : Nat
  tagsAdded : Nat
  performersCreated : Nat
  performersAdded : Nat
  studiosCreated : Nat
  studiosAdded : Nat
  fallbackUsedCount : Nat
  metadataFieldsUpdated : String → Nat
  scraperSuccessCount : String → Nat
  scraperFailureCount : String → Nat

/-- All-zero starting statistics. -/
def initialStats (total : Nat) : ProgressStatsM :=
  ⟨total, 0, 0, 0, 0, 0, 0, 0, 0, 0, 0, 0, fun _ => 0, fun _ => 0, fun _ => 0⟩

/-- The fields of a `ScrapeResult` that the statistics loop reads
(lines 1251–1285). -/
structure ScrapeResultM where
  scraperName : String
  success : Bool
  skipped : Bool
  tagsCreated : List String
  tagsAdded : List String
  performersCreated : List String
  performersAdded : List String
  studioCreated : Option String
  studioAdded : Option String
  fallbackUsed : Bool
  metadataUpdated : List String

/-- Bump a modelled counter dict at one key (`d.get(k, 0) + 1`). -/
def bumpCount (f : String → Nat) (key : String) : String → Nat :=
  fun k => if k = key then f k + 1 else f k

/-- One iteration of the statistics accumulation in `scrape_all`
(lines 1238 and 1254–1285): `processed` is incremented for the item, then
exactly one of the success / skip / failure branches runs. -/
def recordResult (st : ProgressStatsM) (r : ScrapeResultM) : ProgressStatsM :=
  let st := { st with processed := st.processed + 1 }
  if r.success then
    { st with
      successful := st.successful + 1
      tagsCreated := st.tagsCreated + r.tagsCreated.length
      tagsAdded := st.tagsAdded + r.tagsAdded.length
      performersCreated := st.performersCreated + r.performersCreated.length
      performersAdded := st.performersAdded + r.performersAdded.length
      studiosCreated := st.studiosCreated + (if r.studioCreated.isSome then 1 else 0)
      studiosAdded := st.studiosAdded + (if r.studioAdded.isSome then 1 else 0)
      fallbackUsedCount := st.fallbackUsedCount + (if r.fallbackUsed then 1 else 0)
      metadataFieldsUpdated := r.metadataUpdated.foldl bumpCount st.metadataFieldsUpdated
      scraperSuccessCount := bumpCount st.scraperSuccessCount r.scraperName }
  else if r.skipped then
    { st with skipped := st.skipped + 1 }
  else
    { st with
      failed := st.failed + 1
      scraperFailureCount := bumpCount st.scraperFailureCount r.scraperName }

/-!
## Spec-side definitions used by corrected claims
-/

/-- The tag-dump rule exactly as claim C5 words it: after truncating at the
indicator, trim back to the nearest preceding sentence boundary only if the
retained prefix (`sentenceEnd + 1` characters) is at least 30% of the
pre-dump text. -/
def claimRemoveTagDumps (text : List Char) : List Char :=
  match pySearchPos tagDumpCombined text with
  | none => text
  | some pos =>
      let before := text.take pos
      let after := text.drop pos
      let tagCount := pyCount reUnderscoreToken (after.take 200)
      if tagCount ≥ 5 then
        let sentenceEnd : Int :=
          max (pyRfind before ". ".data)
            (max (pyRfind before ".\x0a".data) (pyRfind before ".)".data))
        if 0 ≤ sentenceEnd ∧ 3 * (before.length : Int) ≤ 10 * (sentenceEnd + 1) then
          pyStrip (before.take (sentenceEnd.toNat + 1))
        else
          pyStrip before
      else text

/-- String-level wrapper of the claim-C5 reading. -/
def claimRemoveTagDumpsStr (s : String) : String :=
  ⟨claimRemoveTagDumps s.data⟩

/-- The tag-dump rule as amended: identical to the source except that the
trim-back condition is stated on the boundary index — the text is trimmed
back exactly when `10 * sentenceEnd > 3 * length(before)`, i.e. when the
retained-prefix length minus one strictly exceeds 30% of the pre-dump
length. -/
def amendedRemoveTagDumps (text : List Char) : List Char :=
  match pySearchPos tagDumpCombined text with
  | none => text
  | some pos =>
      let before := text.take pos
      let after := text.drop pos
      let tagCount := pyCount reUnderscoreToken (after.take 200)
      if tagCount ≥ 5 then
        let sentenceEnd : Int :=
          max (pyRfind before ". ".data)
            (max (pyRfind before ".\x0a".data) (pyRfind before ".)".data))
        let retained : Int := sentenceEnd + 1
        if 3 * (before.length : Int) < 10 * (retained - 1) then
          pyStrip (before.take (sentenceEnd.toNat + 1))
        else
          pyStrip before
      else text

/-!
## Theorems for the claims
-/

/-- C1 counterexample: the description-cleaning function is not
idempotent — on `"a • • • b"` a second application changes the text again
(the single pass of the `•\s*•` collapse replaces non-overlapping pairs
only). -/
theorem C1_clean_not_idempotent_counterexample :
    cleanDescriptionStr (cleanDescriptionStr "a • • • b") ≠
      cleanDescriptionStr "a • • • b" := by decide

/-- C1 (amended): cleaning is not idempotent.  A single pass collapses
bullet separators pairwise and non-overlapping, so re-cleaning an
already-clean description can change it again: `clean "a • • • b"` is
`"a • • b"`, whose re-cleaning is `"a • b"`, which is a fixed point. -/
theorem C1_clean_bullet_collapse_amended :
    cleanDescriptionStr "a • • • b" = "a • • b" ∧
    cleanDescriptionStr "a • • b" = "a • b" ∧
    cleanDescriptionStr "a • b" = "a • b" := by decide

/-- C2: a 404 response, or a 2xx body carrying the entity-not-found page
signature, on the first attempt makes `scrape_html_tags` return the
permanent-failure value immediately: one request, no retries, no backoff
sleeps — for every parser, post id, script and positive retry budget. -/
theorem C2_notfound_is_permanent_no_retry
    (parse : String → CategorizedTags) (postId : String)
    (script : Nat → FetchAttempt) (retryCount : Nat)
    (hrc : 1 ≤ retryCount) :
    (script 0 = .httpError 404 →
      scrapeHtmlTags parse postId script retryCount = ⟨.permanentFailure, [], 1⟩) ∧
    (∀ html, script 0 = .ok html → notFoundSignature html = true →
      scrapeHtmlTags parse postId script retryCount = ⟨.permanentFailure, [], 1⟩) := by
  obtain ⟨n, rfl⟩ : ∃ n, retryCount = n + 1 :=
    ⟨retryCount - 1, (Nat.succ_pred_eq_of_pos hrc).symm⟩
  constructor
  · intro h
    simp [scrapeHtmlTags, scrapeHtmlTagsGo, h]
  · intro html h hsig
    simp [scrapeHtmlTags, scrapeHtmlTagsGo, h, hsig]

/-- Witness for C2 at a concrete input: a script whose first attempt is a
404 with retry budget 3. -/
theorem C2_notfound_witness :
    scrapeHtmlTags (fun _ => ⟨[], [], [], [], []⟩) "12345"
      (fun _ => .httpError 404) 3 = ⟨.permanentFailure, [], 1⟩ :=
  (C2_notfound_is_permanent_no_retry (fun _ => ⟨[], [], [], [], []⟩) "12345"
    (fun _ => .httpError 404) 3 (by decide)).1 rfl

/-- C3 counterexample: with `retry_count = 3` and three consecutive 429
responses, the fetch is not a success — the claimed `Success` outcome is
wrong; the loop gives up after the third 429 and the fourth attempt (which
would have returned 200) is never issued. -/
theorem C3_three_429_not_success_counterexample :
    (scrapeHtmlTags (fun _ => ⟨[], [], [], [], []⟩) "1"
      (fun n => if n < 3 then .httpError 429 else .ok "page") 3).result.isSuccess
        = false ∧
    (scrapeHtmlTags (fun _ => ⟨[], [], [], [], []⟩) "1"
      (fun n => if n < 3 then .httpError 429 else .ok "page") 3).attempts = 3 := by
  constructor <;> rfl

/-- C3 (amended): with `maxRetries = 3` and the first three attempts
answering HTTP 429, the fetch issues exactly three requests (the fourth
attempt that would have received 200 is never issued — the script is
unconstrained beyond index 2), sleeps `base·2^0 = 1` second between
attempts 1→2 and `base·2^1 = 2` seconds between attempts 2→3, and returns
the temporary-failure (exhausted-transient) value, not Success. -/
theorem C3_three_429_exhaust_amended
    (parse : String → CategorizedTags) (postId : String)
    (script : Nat → FetchAttempt)
    (h0 : script 0 = .httpError 429) (h1 : script 1 = .httpError 429)
    (h2 : script 2 = .httpError 429) :
    scrapeHtmlTags parse postId script 3 = ⟨.temporaryFailure, [1, 2], 3⟩ := by
  simp [scrapeHtmlTags, scrapeHtmlTagsGo, h0, h1, h2]

/-- Witness for C3 (amended) at a concrete input: three 429s then a 200
that is never fetched. -/
theorem C3_three_429_exhaust_witness :
    scrapeHtmlTags (fun _ => ⟨[], [], [], [], []⟩) "1"
      (fun n => if n < 3 then .httpError 429 else .ok "page") 3
      = ⟨.temporaryFailure, [1, 2], 3⟩ :=
  C3_three_429_exhaust_amended (fun _ => ⟨[], [], [], [], []⟩) "1"
    (fun n => if n < 3 then .httpError 429 else .ok "page") rfl rfl rfl

/-- If every attempt the loop can make is transient (429, 5xx or a network
error), `scrape_html_tags` returns the temporary-failure value. -/
theorem scrapeGo_transient_exhausts (parse : String → CategorizedTags)
    (script : Nat → FetchAttempt) (rc : Nat) :
    ∀ remaining attempt sleeps issued,
      attempt + remaining = rc →
      (∀ i, i < rc → (script i).isTransient = true) →
      (scrapeHtmlTagsGo parse script rc remaining attempt sleeps issued).result
        = .temporaryFailure := by
  intro remaining
  induction remaining with
  | zero => intro attempt sleeps issued _ _; rfl
  | succ m ih =>
      intro attempt sleeps issued hsum htrans
      have hlt : attempt < rc := by omega
      have htr := htrans attempt hlt
      cases hat : script attempt with
      | ok html => rw [hat] at htr; simp [FetchAttempt.isTransient] at htr
      | exn => rw [hat] at htr; simp [FetchAttempt.isTransient] at htr
      | urlError =>
          simp only [scrapeHtmlTagsGo, hat]
          by_cases hc : attempt < rc - 1
          · simp only [if_pos hc]
            exact ih (attempt + 1) (sleeps ++ [1]) (issued + 1) (by omega) htrans
          · simp only [if_neg hc]
      | httpError code =>
          rw [hat] at htr
          simp only [FetchAttempt.isTransient, Bool.or_eq_true, decide_eq_true_eq] at htr
          have hne404 : ¬ code = 404 := by omega
          simp only [scrapeHtmlTagsGo, hat, if_neg hne404]
          rcases htr with h429 | h5xx
          · simp only [if_pos h429]
            by_cases hc : attempt < rc - 1
            · simp only [if_pos hc]
              exact ih (attempt + 1) (sleeps ++ [2 ^ attempt]) (issued + 1)
                (by omega) htrans
            · simp only [if_neg hc]
          · have hne429 : ¬ code = 429 := by omega
            simp only [if_neg hne429, if_pos h5xx]
            by_cases hc : attempt < rc - 1
            · simp only [if_pos hc]
              exact ih (attempt + 1) (sleeps ++ [1]) (issued + 1) (by omega) htrans
            · simp only [if_neg hc]

/-- C4: when the HTML tag fetch exhausts its retries on transient failures
(HTTP 429, 5xx, or a network error), `main` prints the empty JSON object —
no tags, performers, studio or other fields, and in particular no error or
placeholder tag; and an unexpected exception escaping the single-item
operation likewise yields the empty JSON object. -/
theorem C4_transient_failure_empty_output
    (parse : String → CategorizedTags) (postId : String) (md : PostMetadata)
    (script : Nat → FetchAttempt) (rc : Nat)
    (htrans : ∀ i, i < rc → (script i).isTransient = true) :
    mainScrapeOutput (scrapeHtmlTags parse postId script rc).result postId md
      = emptyOutput ∧
    (∀ e, mainEntry (.error e) = emptyOutput) := by
  constructor
  · have h := scrapeGo_transient_exhausts parse script rc rc 0 [] 0 (by omega) htrans
    unfold scrapeHtmlTags
    rw [h]
    rfl
  · intro e; rfl

/-- Witness for C4 at a concrete input: three network errors with retry
budget 3, and a concrete escaping exception. -/
theorem C4_transient_failure_empty_output_witness :
    mainScrapeOutput (scrapeHtmlTags (fun _ => ⟨[], [], [], [], []⟩) "9"
        (fun _ => .urlError) 3).result "9" ⟨none, none, none, none⟩ = emptyOutput ∧
    mainEntry (.error "boom") = emptyOutput :=
  ⟨(C4_transient_failure_empty_output (fun _ => ⟨[], [], [], [], []⟩) "9"
      ⟨none, none, none, none⟩ (fun _ => .urlError) 3 (fun _ _ => rfl)).1,
   (C4_transient_failure_empty_output (fun _ => ⟨[], [], [], [], []⟩) "9"
      ⟨none, none, none, none⟩ (fun _ => .urlError) 3 (fun _ _ => rfl)).2 "boom"⟩

/-- C5 counterexample: on
`"abc. xxxx 1girls a_b c_d e_f g_h i_j"` the indicator `1girls` is found at
index 10, five underscore tokens follow, and trimming back to the sentence
boundary at index 3 would retain 4 of 10 characters = 40% ≥ 30%, so the
claim says the text is trimmed to `"abc."`; the source compares the
boundary index itself (`3 > 10·0.3` is false) and keeps `"abc. xxxx"`. -/
theorem C5_tag_dump_threshold_counterexample :
    removeTagDumpsStr "abc. xxxx 1girls a_b c_d e_f g_h i_j" = "abc. xxxx" ∧
    claimRemoveTagDumpsStr "abc. xxxx 1girls a_b c_d e_f g_h i_j" = "abc." ∧
    removeTagDumpsStr "abc. xxxx 1girls a_b c_d e_f g_h i_j" ≠
      claimRemoveTagDumpsStr "abc. xxxx 1girls a_b c_d e_f g_h i_j" := by
  refine ⟨by decide, by decide, by decide⟩

/-- C5 (amended): tag-dump removal behaves as claimed except for the
trim-back threshold, which is evaluated on the boundary index: the text is
trimmed back to the nearest preceding sentence boundary exactly when
`10 · sentenceEnd > 3 · length(before)` (the retained length minus one must
strictly exceed 30% of the pre-dump length), otherwise the full pre-dump
text is kept; with no indicator, or fewer than 5 underscore-joined tokens
in the 200 characters starting at the indicator, the text is unchanged. -/
theorem C5_tag_dump_amended (text : List Char) :
    removeTagDumps text = amendedRemoveTagDumps text := by
  unfold removeTagDumps amendedRemoveTagDumps
  cases pySearchPos tagDumpCombined text with
  | none => rfl
  | some pos =>
      simp only
      refine if_congr Iff.rfl (if_congr ?_ rfl rfl) rfl
      omega

/-- Consequences of `_is_valid_description` returning `True`: the text is
non-empty, at least 20 characters, at least 5 words, at least half
alphabetic, and matches no garbage pattern. -/
theorem isValid_props (d : List Char) (h : isValidDescription d = true) :
    d ≠ [] ∧ 20 ≤ d.length ∧ 5 ≤ pyWordCount d ∧ d.length ≤ 2 * alphaCount d ∧
      ∀ g ∈ garbagePatterns, pyMatch g d = none := by
  unfold isValidDescription at h
  split_ifs at h with h1 h2 h3 h4 h5
  refine ⟨?_, by omega, by omega, by omega, ?_⟩
  · intro hnil
    rw [hnil] at h1
    exact h1 rfl
  · intro g hg
    by_contra hne
    exact h5 (List.any_eq_true.mpr ⟨g, hg, by
      cases hm : pyMatch g d with
      | none => exact absurd hm hne
      | some n => simp [hm]⟩)

/-- Method 2 returns only texts that validate. -/
theorem firstValidParagraph_valid :
    ∀ (ps : List (List Char)) (d : List Char),
      firstValidParagraph ps = some d → isValidDescription d = true := by
  intro ps
  induction ps with
  | nil => intro d h; exact absurd h (by simp [firstValidParagraph])
  | cons p rest ih =>
      intro d h
      simp only [firstValidParagraph] at h
      split_ifs at h with h1 h2
      · exact Option.some.inj h ▸ h2
      · exact ih d h
      · exact ih d h

/-- Method 3 returns only texts that validate. -/
theorem firstValidDiv_valid :
    ∀ (divs : List (List Char × List Char × List Char)) (d : List Char),
      firstValidDiv divs = some d → isValidDescription d = true := by
  intro divs
  induction divs with
  | nil => intro d h; exact absurd h (by simp [firstValidDiv])
  | cons entry rest ih =>
      intro d h
      obtain ⟨divId, divClass, divText⟩ := entry
      simp only [firstValidDiv] at h
      split_ifs at h with h1 h2 h3 h4
      · exact ih d h
      · exact ih d h
      · exact Option.some.inj h ▸ h4
      · exact ih d h
      · exact ih d h

/-- Every description produced by `_extract_description` validates:
every return site is guarded by `_is_valid_description`. -/
theorem extractDescription_valid (content : Option WikiDoc) (d : List Char)
    (h : extractDescription content = some d) : isValidDescription d = true := by
  cases content with
  | none => exact absurd h (by simp [extractDescription])
  | some doc =>
      simp only [extractDescription] at h
      rcases hbc : bestCandidate doc.tds with ⟨o, score⟩
      rw [hbc] at h
      cases o with
      | none =>
          simp only at h
          cases hp : firstValidParagraph doc.ps with
          | some d2 =>
              rw [hp] at h
              simp only [Option.some.injEq] at h
              exact h ▸ firstValidParagraph_valid doc.ps d2 hp
          | none =>
              rw [hp] at h
              simp only at h
              exact firstValidDiv_valid doc.divs d h
      | some text =>
          simp only at h
          by_cases hgate : (!text.isEmpty && decide (10 ≤ score)) = true
          · rw [if_pos hgate] at h
            by_cases hv : isValidDescription (cleanDescription text) = true
            · rw [if_pos hv] at h
              simp only [Option.some.injEq] at h
              exact h ▸ hv
            · rw [if_neg hv] at h
              simp only at h
              cases hp : firstValidParagraph doc.ps with
              | some d2 =>
                  rw [hp] at h
                  simp only [Option.some.injEq] at h
                  exact h ▸ firstValidParagraph_valid doc.ps d2 hp
              | none =>
                  rw [hp] at h
                  simp only at h
                  exact firstValidDiv_valid doc.divs d h
          · rw [if_neg hgate] at h
            simp only at h
            cases hp : firstValidParagraph doc.ps with
            | some d2 =>
                rw [hp] at h
                simp only [Option.some.injEq] at h
                exact h ▸ firstValidParagraph_valid doc.ps d2 hp
            | none =>
                rw [hp] at h
                simp only at h
                exact firstValidDiv_valid doc.divs d h

/-- C6: every `WikiResult` with `success = True` carries a description
satisfying the CleanedDescription guarantee: non-empty, at least 20
characters, at least 5 words, at least 50% alphabetic characters, and
matching none of the fixed garbage patterns. -/
theorem C6_successful_scrape_valid (tagName : String) (fetch : WikiFetch)
    (h : (scrapeTag tagName fetch).success = true) :
    ∃ d : String, (scrapeTag tagName fetch).description = some d ∧
      d ≠ "" ∧ 20 ≤ d.length ∧ 5 ≤ pyWordCount d.data ∧
      d.data.length ≤ 2 * alphaCount d.data ∧
      (∀ g ∈ garbagePatterns, pyMatch g d.data = none) ∧
      isValidDescription d.data = true := by
  cases fetch
  case page content =>
    simp only [scrapeTag] at h ⊢
    cases he : extractDescription content with
    | none => exact absurd h (by simp [he])
    | some dd =>
        cases hdd : dd.isEmpty with
        | true => exact absurd h (by simp [he, hdd])
        | false =>
            have hv := extractDescription_valid content dd he
            obtain ⟨hnil, hlen, hwords, halpha, hgarbage⟩ := isValid_props dd hv
            refine ⟨⟨dd⟩, by simp [he, hdd], ?_, hlen, hwords, halpha, hgarbage, hv⟩
            intro heq
            exact hnil (congrArg String.data heq)
  all_goals exact absurd h (by simp [scrapeTag])

/-- Witness for C6 at a concrete input: a wiki page whose content div has
one table cell scoring above the threshold and cleaning to a valid
description. -/
theorem C6_successful_scrape_valid_witness :
    ∃ d : String,
      (scrapeTag "t" (.page (some
        ⟨["This is a fine character description. It has several sentences.".data],
         [], []⟩))).description = some d ∧
      d ≠ "" ∧ 20 ≤ d.length ∧ 5 ≤ pyWordCount d.data ∧
      d.data.length ≤ 2 * alphaCount d.data ∧
      (∀ g ∈ garbagePatterns, pyMatch g d.data = none) ∧
      isValidDescription d.data = true :=
  C6_successful_scrape_valid "t" (.page (some
    ⟨["This is a fine character description. It has several sentences.".data],
     [], []⟩)) (by decide)

/-- Folding the partition step over scrapers none of which matches the
requested name accumulates the specific/generic partition and leaves the
primary untouched. -/
theorem partition_foldl_nomatch (nm : String) :
    ∀ (l : List Scraper) (acc : Option Scraper × List Scraper × List Scraper),
      (∀ s ∈ l, ¬ lowerStr s.name = lowerStr nm) →
      l.foldl (partitionStep nm) acc =
        (acc.1, acc.2.1 ++ l.filter (fun s => !isGenericScraper s),
          acc.2.2 ++ l.filter isGenericScraper) := by
  intro l
  induction l with
  | nil => intro acc _; simp
  | cons s rest ih =>
      intro acc hno
      have hs : ¬ lowerStr s.name = lowerStr nm := hno s (List.mem_cons_self s rest)
      have htail : ∀ x ∈ rest, ¬ lowerStr x.name = lowerStr nm :=
        fun x hx => hno x (List.mem_cons_of_mem s hx)
      simp only [List.foldl_cons]
      cases hg : isGenericScraper s with
      | true =>
          rw [show partitionStep nm acc s = (acc.1, acc.2.1, acc.2.2 ++ [s]) by
            simp [partitionStep, hs, hg]]
          rw [ih _ htail]
          simp [List.filter_cons, hg]
      | false =>
          rw [show partitionStep nm acc s = (acc.1, acc.2.1 ++ [s], acc.2.2) by
            simp [partitionStep, hs, hg]]
          rw [ih _ htail]
          simp [List.filter_cons, hg]

/-- C7: the orchestrator's strategy ordering.  Without a requested name,
the ordered output is the FRAGMENT-capable specific strategies (in input
order) followed by the generic-named ones (in input order) — so every
generic strategy comes after every specific one; with a requested name
that occurs (uniquely) in the FRAGMENT-capable list, the output is that
strategy first, then the remaining specific strategies, then the generic
ones, each group preserving input order. -/
theorem C7_strategy_ordering (scrapers : List Scraper) :
    (∀ ord, orderScrapers scrapers none = some ord →
      ord = (scrapers.filter supportsFragment).filter (fun s => !isGenericScraper s) ++
        (scrapers.filter supportsFragment).filter isGenericScraper ∧
      (∀ s ∈ (scrapers.filter supportsFragment).filter (fun s => !isGenericScraper s),
        isGenericScraper s = false) ∧
      (∀ s ∈ (scrapers.filter supportsFragment).filter isGenericScraper,
        isGenericScraper s = true)) ∧
    (∀ nm (l₁ : List Scraper) (p : Scraper) (l₂ : List Scraper),
      scrapers.filter supportsFragment = l₁ ++ p :: l₂ →
      lowerStr p.name = lowerStr nm →
      (∀ s ∈ l₁, ¬ lowerStr s.name = lowerStr nm) →
      (∀ s ∈ l₂, ¬ lowerStr s.name = lowerStr nm) →
      orderScrapers scrapers (some nm) =
        some (p :: ((l₁ ++ l₂).filter (fun s => !isGenericScraper s) ++
          (l₁ ++ l₂).filter isGenericScraper))) := by
  constructor
  · intro ord h
    simp only [orderScrapers] at h
    split_ifs at h with h1 h2
    refine ⟨(Option.some.inj h).symm, ?_, ?_⟩
    · intro s hs
      have := List.of_mem_filter hs
      simpa using this
    · intro s hs
      exact List.of_mem_filter hs
  · intro nm l₁ p l₂ hfrag hp hl₁ hl₂
    have hfragne : scrapers.filter supportsFragment ≠ [] := by
      rw [hfrag]
      exact List.append_ne_nil_of_right_ne_nil l₁ (List.cons_ne_nil p l₂)
    have hscrne : scrapers ≠ [] := by
      intro hs
      exact hfragne (by rw [hs]; rfl)
    simp only [orderScrapers]
    rw [if_neg (by simpa [List.isEmpty_iff] using hscrne),
      if_neg (by simpa [List.isEmpty_iff] using hfragne)]
    rw [hfrag, List.foldl_append, partition_foldl_nomatch nm l₁ _ hl₁]
    simp only [List.foldl_cons]
    rw [show partitionStep nm (none, [] ++ l₁.filter (fun s => !isGenericScraper s),
        [] ++ l₁.filter isGenericScraper) p =
        (some p, [] ++ l₁.filter (fun s => !isGenericScraper s),
          [] ++ l₁.filter isGenericScraper) by
      simp [partitionStep, hp]]
    rw [partition_foldl_nomatch nm l₂ _ hl₂]
    simp [List.filter_append]

/-- Witness for C7 at a concrete input (the spec's Scenario D shape):
specific `R34Scraper`, generic `AutoTagger`, specific `Danbooru`, with
`AutoTagger` requested — the order is the requested scraper first, then
the remaining specific, then nothing generic remains but the other
specific precedes it. -/
theorem C7_strategy_ordering_witness :
    orderScrapers
      [⟨"1", "R34Scraper", ["FRAGMENT"]⟩, ⟨"2", "AutoTagger", ["FRAGMENT"]⟩,
       ⟨"3", "Danbooru", ["FRAGMENT"]⟩] (some "autotagger") =
      some [⟨"2", "AutoTagger", ["FRAGMENT"]⟩, ⟨"1", "R34Scraper", ["FRAGMENT"]⟩,
        ⟨"3", "Danbooru", ["FRAGMENT"]⟩] :=
  ((C7_strategy_ordering
      [⟨"1", "R34Scraper", ["FRAGMENT"]⟩, ⟨"2", "AutoTagger", ["FRAGMENT"]⟩,
       ⟨"3", "Danbooru", ["FRAGMENT"]⟩]).2 "autotagger"
    [⟨"1", "R34Scraper", ["FRAGMENT"]⟩] ⟨"2", "AutoTagger", ["FRAGMENT"]⟩
    [⟨"3", "Danbooru", ["FRAGMENT"]⟩] (by decide) (by decide) (by decide)
    (by decide)).trans (by decide)

/-- The skip rules of claim C8, in the claim's order, each producing its
reason; the skip decision is the first rule that fires. -/
def specSkipChecks (cfg : SkipConfig) (item : StashItemM) : List (Option SkipReason) :=
  [(if cfg.skipOrganized && item.organized then some .alreadyOrganized else none),
   (if cfg.skipTagged && decide (0 < item.tags.length) then some .alreadyHasTags
    else none),
   (if !cfg.skipIfHasTags.isEmpty && !item.tags.isEmpty then
      (cfg.skipIfHasTags.find? (fun t =>
        (item.tags.map (fun r => lowerStr r.name)).contains t)).map SkipReason.exclusionTag
    else none),
   (if pathMissing item.path then some .noFilePath else none),
   (if cfg.dateSince.isSome || cfg.dateBefore.isSome then
      match item.fileTimestamp with
      | none => some .noTimestamp
      | some ts =>
          match cfg.dateSince with
          | some since =>
              if ts < since then some (.beforeDateFilter since)
              else
                match cfg.dateBefore with
                | some before =>
                    if before + oneDay ≤ ts then some (.afterDateFilter before)
                    else none
                | none => none
          | none =>
              match cfg.dateBefore with
              | some before =>
                  if before + oneDay ≤ ts then some (.afterDateFilter before)
                  else none
              | none => none
    else none)]

/-- First rule that fires, in order. -/
def specShouldSkip (cfg : SkipConfig) (item : StashItemM) : Option SkipReason :=
  (specSkipChecks cfg item).findSome? id

/-- C8: `_should_skip_item` evaluates the skip rules in the claimed fixed
order with the first matching rule winning — it coincides with the
first-hit scan of the rule list — and in particular an organized item
under `skip_organized` is skipped as "already organized" no matter what
the other fields (such as a missing path) would say. -/
theorem C8_skip_policy_order (cfg : SkipConfig) (item : StashItemM) :
    shouldSkipItem cfg item = specShouldSkip cfg item ∧
    (cfg.skipOrganized = true → item.organized = true →
      shouldSkipItem cfg item = some .alreadyOrganized) := by
  constructor
  · unfold shouldSkipItem specShouldSkip specSkipChecks
    simp only [List.findSome?_cons, List.findSome?_nil, id]
    by_cases h1 : (cfg.skipOrganized && item.organized) = true
    · simp [h1]
    · simp only [if_neg h1]
      by_cases h2 : (cfg.skipTagged && decide (0 < item.tags.length)) = true
      · simp [h2]
      · simp only [if_neg h2]
        by_cases h3 : (!cfg.skipIfHasTags.isEmpty && !item.tags.isEmpty) = true
        · simp only [if_pos h3]
          cases hf : cfg.skipIfHasTags.find? (fun t =>
              (item.tags.map (fun r => lowerStr r.name)).contains t) with
          | some t => simp [hf]
          | none =>
              simp only [hf, Option.map_none']
              by_cases h4 : pathMissing item.path = true
              · simp [h4]
              · simp only [if_neg h4]
                by_cases h5 : (cfg.dateSince.isSome || cfg.dateBefore.isSome) = true
                · simp only [if_pos h5]
                  cases item.fileTimestamp with
                  | none => simp
                  | some ts =>
                      cases cfg.dateSince with
                      | some since =>
                          by_cases h6 : ts < since
                          · simp [h6]
                          · simp only [if_neg h6]
                            cases cfg.dateBefore with
                            | some before =>
                                by_cases h7 : before + oneDay ≤ ts
                                · simp [h7]
                                · simp [h7]
                            | none => simp
                      | none =>
                          cases cfg.dateBefore with
                          | some before =>
                              by_cases h7 : before + oneDay ≤ ts
                              · simp [h7]
                              · simp [h7]
                          | none => simp
                · simp [h5]
        · simp only [if_neg h3]
          by_cases h4 : pathMissing item.path = true
          · simp [h4]
          · simp only [if_neg h4]
            by_cases h5 : (cfg.dateSince.isSome || cfg.dateBefore.isSome) = true
            · simp only [if_pos h5]
              cases item.fileTimestamp with
              | none => simp
              | some ts =>
                  cases cfg.dateSince with
                  | some since =>
                      by_cases h6 : ts < since
                      · simp [h6]
                      · simp only [if_neg h6]
                        cases cfg.dateBefore with
                        | some before =>
                            by_cases h7 : before + oneDay ≤ ts
                            · simp [h7]
                            · simp [h7]
                        | none => simp
                  | none =>
                      cases cfg.dateBefore with
                      | some before =>
                          by_cases h7 : before + oneDay ≤ ts
                          · simp [h7]
                          · simp [h7]
                      | none => simp
            · simp [h5]
  · intro ho hi
    simp [shouldSkipItem, ho, hi]

/-- Witness for C8 at a concrete input: an organized item that also has no
file path is skipped with the "already organized" reason under
`skip_organized`. -/
theorem C8_skip_policy_order_witness :
    shouldSkipItem ⟨true, false, [], none, none⟩
      ⟨"1", "image", none, none, none, [], true, none⟩ = some .alreadyOrganized :=
  (C8_skip_policy_order ⟨true, false, [], none, none⟩
    ⟨"1", "image", none, none, none, [], true, none⟩).2 rfl rfl

/-- C9 counterexample: the update payload does not merge or de-duplicate
performer ids.  For an item with existing tag `t1` and an update carrying
tag `t2` and the duplicated performer list `["9", "9"]`, the mutation
input merges and de-duplicates the tag ids but sends the performer list
exactly as supplied — duplicated, and independent of any existing
performer associations. -/
theorem C9_performer_merge_counterexample :
    (updateInputData ⟨"i", "image", none, none, none, [⟨"t1", "old"⟩], false, none⟩
      ⟨some ["t2"], some ["9", "9"], none, none, none, none, none, none, none,
        none⟩).performerIds = some ["9", "9"] ∧
    (["9", "9"] : List String).dedup = ["9"] ∧
    (updateInputData ⟨"i", "image", none, none, none, [⟨"t1", "old"⟩], false, none⟩
      ⟨some ["t2"], some ["9", "9"], none, none, none, none, none, none, none,
        none⟩).tagIds = some ["t1", "t2"] := by
  refine ⟨rfl, by decide, by decide⟩

/-- C9 (amended): the update merges the supplied tag id list with the
item's existing tag ids and de-duplicates it, so no existing tag
association is dropped; the performer id list is sent exactly as supplied
— unmerged and un-deduplicated — so existing performer associations not
present in the update are not preserved by this operation. -/
theorem C9_update_merge_amended (item : StashItemM) (u : UpdatePayload) :
    (updateInputData item u).performerIds = u.performerIds ∧
    (∀ l, u.tagIds = some l →
      (updateInputData item u).tagIds =
        some (mergeTagIds (item.tags.map TagRef.id) l) ∧
      (∀ t ∈ item.tags.map TagRef.id, t ∈ mergeTagIds (item.tags.map TagRef.id) l) ∧
      (mergeTagIds (item.tags.map TagRef.id) l).Nodup) ∧
    (u.tagIds = none → (updateInputData item u).tagIds = none) := by
  refine ⟨rfl, ?_, ?_⟩
  · intro l hl
    refine ⟨by simp [updateInputData, hl], ?_, List.nodup_dedup _⟩
    intro t ht
    exact List.mem_dedup.mpr (List.mem_append_left _ ht)
  · intro hn
    simp [updateInputData, hn]

/-- Witness for C9 (amended) at a concrete input. -/
theorem C9_update_merge_amended_witness :
    (updateInputData ⟨"i", "image", none, none, none, [⟨"t1", "old"⟩], false, none⟩
      ⟨some ["t2"], some ["9"], none, none, none, none, none, none, none,
        none⟩).tagIds = some (mergeTagIds ["t1"] ["t2"]) :=
  ((C9_update_merge_amended
    ⟨"i", "image", none, none, none, [⟨"t1", "old"⟩], false, none⟩
    ⟨some ["t2"], some ["9"], none, none, none, none, none, none, none,
      none⟩).2.1 ["t2"] rfl).1

/-- C10: each batch-loop iteration increments `processed` by exactly one
and exactly one of `successful`, `skipped`, `failed`; consequently the
invariant `processed = successful + skipped + failed` is preserved by
every iteration and holds after every prefix of the run (starting from
zeroed statistics). -/
theorem C10_stats_invariant :
    (∀ (st : ProgressStatsM) (r : ScrapeResultM),
      (recordResult st r).processed = st.processed + 1 ∧
      (((recordResult st r).successful = st.successful + 1 ∧
        (recordResult st r).skipped = st.skipped ∧
        (recordResult st r).failed = st.failed) ∨
       ((recordResult st r).successful = st.successful ∧
        (recordResult st r).skipped = st.skipped + 1 ∧
        (recordResult st r).failed = st.failed) ∨
       ((recordResult st r).successful = st.successful ∧
        (recordResult st r).skipped = st.skipped ∧
        (recordResult st r).failed = st.failed + 1)) ∧
      (st.processed = st.successful + st.skipped + st.failed →
        (recordResult st r).processed =
          (recordResult st r).successful + (recordResult st r).skipped +
            (recordResult st r).failed)) ∧
    (∀ (rs : List ScrapeResultM) (total : Nat),
      (rs.foldl recordResult (initialStats total)).processed =
        (rs.foldl recordResult (initialStats total)).successful +
          (rs.foldl recordResult (initialStats total)).skipped +
          (rs.foldl recordResult (initialStats total)).failed) := by
  have step : ∀ (st : ProgressStatsM) (r : ScrapeResultM),
      (recordResult st r).processed = st.processed + 1 ∧
      (((recordResult st r).successful = st.successful + 1 ∧
        (recordResult st r).skipped = st.skipped ∧
        (recordResult st r).failed = st.failed) ∨
       ((recordResult st r).successful = st.successful ∧
        (recordResult st r).skipped = st.skipped + 1 ∧
        (recordResult st r).failed = st.failed) ∨
       ((recordResult st r).successful = st.successful ∧
        (recordResult st r).skipped = st.skipped ∧
        (recordResult st r).failed = st.failed + 1)) := by
    intro st r
    unfold recordResult
    by_cases hs : r.success = true
    · simp [hs]
    · by_cases hk : r.skipped = true
      · simp [hs, hk]
      · simp [hs, hk]
  have inv : ∀ (rs : List ScrapeResultM) (st : ProgressStatsM),
      st.processed = st.successful + st.skipped + st.failed →
      (rs.foldl recordResult st).processed =
        (rs.foldl recordResult st).successful + (rs.foldl recordResult st).skipped +
          (rs.foldl recordResult st).failed := by
    intro rs
    induction rs with
    | nil => intro st h; exact h
    | cons r rest ih =>
        intro st h
        simp only [List.foldl_cons]
        refine ih (recordResult st r) ?_
        obtain ⟨hp, hone⟩ := step st r
        rcases hone with ⟨ha, hb, hc⟩ | ⟨ha, hb, hc⟩ | ⟨ha, hb, hc⟩ <;>
          rw [hp, ha, hb, hc] <;> omega
  refine ⟨?_, ?_⟩
  · intro st r
    obtain ⟨hp, hone⟩ := step st r
    refine ⟨hp, hone, ?_⟩
    intro h
    rcases hone with ⟨ha, hb, hc⟩ | ⟨ha, hb, hc⟩ | ⟨ha, hb, hc⟩ <;>
      rw [hp, ha, hb, hc] <;> omega
  · intro rs total
    exact inv rs (initialStats total) rfl

/-- Witness for C10 at a concrete input: one successful result on zeroed
statistics. -/
theorem C10_stats_invariant_witness :
    (recordResult (initialStats 5)
        ⟨"r34", true, false, [], [], [], [], none, none, false, []⟩).processed =
      (recordResult (initialStats 5)
        ⟨"r34", true, false, [], [], [], [], none, none, false, []⟩).successful +
        (recordResult (initialStats 5)
          ⟨"r34", true, false, [], [], [], [], none, none, false, []⟩).skipped +
        (recordResult (initialStats 5)
          ⟨"r34", true, false, [], [], [], [], none, none, false, []⟩).failed :=
  (C10_stats_invariant.1 (initialStats 5)
    ⟨"r34", true, false, [], [], [], [], none, none, false, []⟩).2.2 rfl

/-- Cross-validation of the cleaning pipeline against the spec's
Scenario A: header and footer are stripped, the prose kept. -/
theorem scenarioA_header_footer_cleaned :
    cleanDescriptionStr
      "Now Viewing: fizz Tag type: Character Some prose. Other Wiki Information Last updated: 2020-01-01 by bob"
      = "Some prose." := by decide

end Plugins
